import Mathlib

/-!
Shallow embedding of the typc typing trainer (src/main.c) and verification
of its specification claims.

Characters and key codes are modelled as natural numbers (the values
returned by getch / stored in char buffers). Floating-point metric
computations are modelled over the rationals.
-/

namespace Typc

/-! ## Constants from main.c -/

/-- PRINT_CHAR_MIN in main.c: minimal printable char. -/
def PRINT_CHAR_MIN : Nat := 32

/-- PRINT_CHAR_MAX in main.c: maximal printable char. -/
def PRINT_CHAR_MAX : Nat := 126

/-- ncurses KEY_BACKSPACE key code. -/
def KEY_BACKSPACE : Nat := 263

/-- The global char_offset (look-ahead margin) in main.c, fixed at 20. -/
def char_offset : Int := 20

/-! ## Key classification (run_typing_trainer key handling) -/

/-- The backspace test in run_typing_trainer:
ch == KEY_BACKSPACE || ch == PRINT_CHAR_MAX + 1 || ch == 8. -/
def isBackspaceKey (ch : Nat) : Bool :=
  ch = KEY_BACKSPACE || ch = PRINT_CHAR_MAX + 1 || ch = 8

/-- The printable test in run_typing_trainer:
ch >= PRINT_CHAR_MIN && ch <= PRINT_CHAR_MAX. -/
def isPrintableKey (ch : Nat) : Bool :=
  PRINT_CHAR_MIN ≤ ch && ch ≤ PRINT_CHAR_MAX

/-! ## Session state (the local variables of run_typing_trainer) -/

/-- The mutable session variables of run_typing_trainer: cursor position,
typed buffer, keystroke and error counters, and the started flag plus the
recorded start time. -/
structure SessionState where
  current_index : Nat
  typed : List Nat
  total_keystrokes : Nat
  error_count : Nat
  started : Bool
  start_time : Option Nat
  deriving Repr, DecidableEq

/-- Initial session state: cursor 0, typed buffer of n zero bytes (memset),
counters zero, not started. -/
def initState (n : Nat) : SessionState :=
  { current_index := 0
    typed := List.replicate n 0
    total_keystrokes := 0
    error_count := 0
    started := false
    start_time := none }

/-- The block right after getch in the loop: on the first key of any kind
(started still false) record start_time = now and set started. -/
def startClock (s : SessionState) (now : Nat) : SessionState :=
  if s.started then s else { s with started := true, start_time := some now }

/-- One iteration of the typing loop body after getch returned ch at time
now: the started flag and start_time are set on the first key of any kind,
then the key is classified as backspace (cursor retreats if positive),
printable (records the char, counts the keystroke, counts an error on
mismatch, advances the cursor) or ignored. -/
def applyKey (text : List Nat) (s : SessionState) (ch now : Nat) : SessionState :=
  let s1 := startClock s now
  if isBackspaceKey ch then
    if s1.current_index > 0 then { s1 with current_index := s1.current_index - 1 } else s1
  else if isPrintableKey ch then
    { s1 with
      total_keystrokes := s1.total_keystrokes + 1
      typed := s1.typed.set s1.current_index ch
      error_count :=
        if ch ≠ text.getD s1.current_index 0 then s1.error_count + 1 else s1.error_count
      current_index := s1.current_index + 1 }
  else s1

/-- The typing loop: while current_index < total_chars, read one key
(paired with the time at which it arrives) and apply it; remaining keys
after completion are never read. -/
def run (text : List Nat) : SessionState → List (Nat × Nat) → SessionState
  | s, [] => s
  | s, (ch, now) :: rest =>
      if s.current_index < text.length then run text (applyKey text s ch now) rest
      else s

/-! ## Metrics -/

/-- C isspace over byte values: space (32) or 9..13 (tab, newline, vertical
tab, form feed, carriage return). -/
def isspaceByte (ch : Nat) : Bool :=
  ch = 32 || (9 ≤ ch && ch ≤ 13)

/-- The non-whitespace character count computed by calc_speed's read loop. -/
def nonWhitespaceCount (text : List Nat) : Nat :=
  (text.filter (fun c => !isspaceByte c)).length

/-- calc_speed from main.c: given the text contents and the elapsed time,
returns (wpm, cpm) with cpm = total_chars / elapsed * 60 and
wpm = cpm / 5.0 (the code assumes an average word length of 5). -/
def calc_speed (text : List Nat) (elapsed : ℚ) : ℚ × ℚ :=
  let cpm : ℚ := (nonWhitespaceCount text : ℚ) / elapsed * 60
  (cpm / 5, cpm)

/-- The correct character count computed after the loop:
for i in 0..total_chars, count typed[i] == text[i]. -/
def correct_chars (text typed : List Nat) : Nat :=
  (List.range text.length).countP (fun i => typed.getD i 0 = text.getD i 0)

/-- The accuracy computation after the loop:
correct_chars * 100.0 / total_chars (no guard on total_chars = 0). -/
def accuracy (text typed : List Nat) : ℚ :=
  (correct_chars text typed : ℚ) * 100 / (text.length : ℚ)

/-- The consistency computation after the loop:
(total_keystrokes - error_count) * 100 / total_keystrokes, guarded to 100
when total_keystrokes = 0. -/
def consistency (total_keystrokes error_count : Nat) : ℚ :=
  if total_keystrokes > 0 then
    ((total_keystrokes : ℚ) - (error_count : ℚ)) * 100 / (total_keystrokes : ℚ)
  else 100

/-! ## Spec-side word metrics (for the refinement claim about WPM) -/

/-- Helper for the spec's word count: counts maximal runs of
non-whitespace characters; the flag records whether the previous character
was inside a word. -/
def countWordsAux : List Nat → Bool → Nat
  | [], _ => 0
  | c :: rest, in_word =>
      if isspaceByte c then countWordsAux rest false
      else (if in_word then 0 else 1) + countWordsAux rest true

/-- Modelled from the spec: word count of the reference text, a word being
a maximal run of non-whitespace characters. -/
def spec_word_count (text : List Nat) : Nat :=
  countWordsAux text false

/-- Modelled from the spec: averageWordLength = total non-whitespace
characters / word count, with a fixed fallback of 5 when the text has no
words. -/
def spec_average_word_length (text : List Nat) : ℚ :=
  if spec_word_count text = 0 then 5
  else (nonWhitespaceCount text : ℚ) / (spec_word_count text : ℚ)

/-! ## Scrolled rendering (draw_scrolled) -/

/-- The horizontal offset computed at the top of draw_scrolled:
0 when current_index + char_offset < screen_width, else
current_index - screen_width + char_offset + 1. -/
def scroll_offset (current_index screen_width : Int) : Int :=
  if current_index + char_offset < screen_width then 0
  else current_index - screen_width + char_offset + 1

/-! ## Wrapped rendering (draw_wrapped) -/

/-- Cell styles: color pair 1 (correct, white), color pair 3 (error, red),
color pair 2 with A_DIM (untyped). -/
inductive Style where
  | correct
  | error
  | dim
  deriving Repr, DecidableEq

/-- One rendered screen cell: position, the character drawn, its style. -/
structure Cell where
  row : Nat
  col : Nat
  ch : Nat
  style : Style
  deriving Repr, DecidableEq

/-- Default cell used when indexing the rendered frame out of range. -/
def cellDefault : Cell :=
  { row := 0, col := 0, ch := 0, style := Style.dim }

/-- The cell drawn by one iteration of draw_wrapped's loop at text index i:
row i / screen_width, column i % screen_width; below the cursor the typed
char in correct style on a match, otherwise (HIDE_ERR) the expected text
char in error style; at or past the cursor the text char dimmed. -/
def wrapCell (text typed : List Nat) (screen_width current_index i : Nat) : Cell :=
  let row := i / screen_width
  let col := i % screen_width
  if i < current_index then
    if typed.getD i 0 = text.getD i 0 then
      { row := row, col := col, ch := typed.getD i 0, style := Style.correct }
    else
      { row := row, col := col, ch := text.getD i 0, style := Style.error }
  else
    { row := row, col := col, ch := text.getD i 0, style := Style.dim }

/-- draw_wrapped from main.c: for i in 0..total_chars, draw the cell at
row i / screen_width, column i % screen_width. -/
def draw_wrapped (text : List Nat) (screen_width : Nat) (typed : List Nat)
    (current_index : Nat) : List Cell :=
  (List.range text.length).map (wrapCell text typed screen_width current_index)

/-! ## Argument parsing (the loop at the top of main) -/

/-- One iteration of main's argument loop. arg1 is argv[1]: the code's
else-if branch compares argv[1] (not the current argument) against
"--debug". An earlier usage() exit is modelled by none, which absorbs. -/
def parseStep (arg1 : String) (acc : Option (Bool × Bool)) (a : String) :
    Option (Bool × Bool) :=
  match acc with
  | none => none
  | some (w, d) =>
      if a = "--wrap" then some (true, d)
      else if arg1 = "--debug" then some (w, true)
      else none

/-- The argument handling at the top of main: more than 3 argv entries is a
usage error, otherwise each argv[i] for i >= 1 is processed by the loop.
Returns some (wrap_mode, debug) when a session starts, none when usage()
is called and the process exits non-zero. -/
def parse_args (argv : List String) : Option (Bool × Bool) :=
  if argv.length > 3 then none
  else (argv.drop 1).foldl (parseStep (argv.getD 1 "")) (some (false, false))

/-! ## Score persistence control flow (save_score and main's tail) -/

/-- Outcome of save_score: fatal exit when create_data_csv fails, a silent
return without writing when the scores file cannot be opened for append,
or a written record. -/
inductive SaveOutcome where
  | fatalExit
  | droppedNoWrite
  | written
  deriving Repr, DecidableEq

/-- save_score's control flow as a function of whether create_data_csv
succeeds and whether fopen(scores_file, "a") succeeds: create failure is
exit(EXIT_FAILURE); open failure is perror + return (record lost);
otherwise the record is appended. -/
def save_score (createOk openOk : Bool) : SaveOutcome :=
  if !createOk then SaveOutcome.fatalExit
  else if !openOk then SaveOutcome.droppedNoWrite
  else SaveOutcome.written

/-- The process exit status after a completed session: exit(EXIT_FAILURE)
= 1 inside save_score when create_data_csv fails; in every other case
main falls through save_score and returns 0. -/
def session_exit_status (createOk openOk : Bool) : Nat :=
  match save_score createOk openOk with
  | SaveOutcome.fatalExit => 1
  | _ => 0

/-! ## Theorems -/

/-- Claim C1, counterexample. For the text "ab cd" (average word length
4 / 2 = 2, not 5) and elapsed time 60, calc_speed returns WPM = CPM / 5,
not CPM / averageWordLength: the claimed equation fails. -/
theorem calc_speed_avg_len_counterexample :
    spec_average_word_length [97, 98, 32, 99, 100] ≠ 5 ∧
    (calc_speed [97, 98, 32, 99, 100] 60).1 ≠
      (calc_speed [97, 98, 32, 99, 100] 60).2 /
        spec_average_word_length [97, 98, 32, 99, 100] := by
  have hw : spec_word_count [97, 98, 32, 99, 100] = 2 := rfl
  have hn : nonWhitespaceCount [97, 98, 32, 99, 100] = 4 := rfl
  constructor
  · simp only [spec_average_word_length, hw, hn]
    norm_num
  · simp only [calc_speed, spec_average_word_length, hw, hn]
    norm_num

/-- Claim C1, amended. calc_speed always computes WPM as CPM divided by
the fixed constant 5, regardless of the text's average word length. -/
theorem calc_speed_wpm_eq_cpm_div_five (text : List Nat) (elapsed : ℚ) :
    (calc_speed text elapsed).1 = (calc_speed text elapsed).2 / 5 := by
  simp [calc_speed]

/-- Claim C2, counterexample. In scrolling mode with screen width 10 and
look-ahead margin 20, already at cursor 0 the computed offset is 11, not
0: the condition 0 + 20 < 10 is false, so the else branch yields
0 - 10 + 20 + 1 = 11. -/
theorem scroll_offset_counterexample : scroll_offset 0 10 ≠ 0 := by decide

/-- Claim C2, amended. With screen width 10 and look-ahead margin 20, for
every cursor position in [0, 5] the computed offset is cursor + 11
(cursor - width + margin + 1), never 0. -/
theorem scroll_offset_width10 (cursor : Int) (h0 : 0 ≤ cursor) (h5 : cursor ≤ 5) :
    scroll_offset cursor 10 = cursor + 11 := by
  simp only [scroll_offset, char_offset]
  rw [if_neg (by omega)]
  omega

/-- Witness for scroll_offset_width10 at cursor 3. -/
theorem scroll_offset_width10_witness : scroll_offset 3 10 = 3 + 11 :=
  scroll_offset_width10 3 (by decide) (by decide)

/-- Claim C3. Scenario B: for reference text "ab" and the key sequence
x, backspace, a, b, the session completes with typed = "ab",
total_keystrokes = 3, error_count = 1, accuracy = 100 and
consistency = (3 - 1) / 3 * 100 = 200/3. -/
theorem scenarioB :
    (run [97, 98] (initState 2) [(120, 0), (8, 1), (97, 2), (98, 3)]).typed = [97, 98] ∧
    (run [97, 98] (initState 2) [(120, 0), (8, 1), (97, 2), (98, 3)]).total_keystrokes = 3 ∧
    (run [97, 98] (initState 2) [(120, 0), (8, 1), (97, 2), (98, 3)]).error_count = 1 ∧
    (run [97, 98] (initState 2) [(120, 0), (8, 1), (97, 2), (98, 3)]).current_index = 2 ∧
    accuracy [97, 98]
      (run [97, 98] (initState 2) [(120, 0), (8, 1), (97, 2), (98, 3)]).typed = 100 ∧
    consistency
      (run [97, 98] (initState 2) [(120, 0), (8, 1), (97, 2), (98, 3)]).total_keystrokes
      (run [97, 98] (initState 2) [(120, 0), (8, 1), (97, 2), (98, 3)]).error_count =
      200 / 3 := by
  have ht : (run [97, 98] (initState 2) [(120, 0), (8, 1), (97, 2), (98, 3)]).typed =
      [97, 98] := by decide
  have htk : (run [97, 98] (initState 2)
      [(120, 0), (8, 1), (97, 2), (98, 3)]).total_keystrokes = 3 := by decide
  have he : (run [97, 98] (initState 2)
      [(120, 0), (8, 1), (97, 2), (98, 3)]).error_count = 1 := by decide
  refine ⟨ht, htk, he, by decide, ?_, ?_⟩
  · rw [ht]
    have hc : correct_chars [97, 98] [97, 98] = 2 := rfl
    simp only [accuracy, hc]
    norm_num
  · rw [htk, he]
    simp only [consistency]
    norm_num

/-- Claim C4, counterexample. Key code 259 (an arrow key) is neither
printable nor a backspace variant, yet as the first key event it sets
started and start_time while leaving the cursor unchanged. -/
theorem start_time_counterexample :
    isPrintableKey 259 = false ∧ isBackspaceKey 259 = false ∧
    (applyKey [97, 98] (initState 2) 259 5).started = true ∧
    (applyKey [97, 98] (initState 2) 259 5).start_time = some 5 ∧
    (applyKey [97, 98] (initState 2) 259 5).current_index = 0 := by
  decide

/-- Claim C4, amended. start_time is recorded on the first key event of
any kind after the loop begins: the very first applied key, printable,
backspace or ignored, sets started and start_time. -/
theorem start_time_on_first_key (text : List Nat) (ch now : Nat) :
    (applyKey text (initState text.length) ch now).started = true ∧
    (applyKey text (initState text.length) ch now).start_time = some now := by
  simp only [applyKey, initState]
  split_ifs <;> simp_all [startClock]

/-- Helper: starting the clock does not change the cursor. -/
@[simp]
theorem startClock_current_index (s : SessionState) (now : Nat) :
    (startClock s now).current_index = s.current_index := by
  unfold startClock
  split_ifs <;> rfl

/-- Helper: starting the clock does not change the typed buffer. -/
@[simp]
theorem startClock_typed (s : SessionState) (now : Nat) :
    (startClock s now).typed = s.typed := by
  unfold startClock
  split_ifs <;> rfl

/-- Helper: starting the clock does not change the keystroke counter. -/
@[simp]
theorem startClock_total_keystrokes (s : SessionState) (now : Nat) :
    (startClock s now).total_keystrokes = s.total_keystrokes := by
  unfold startClock
  split_ifs <;> rfl

/-- Helper: starting the clock does not change the error counter. -/
@[simp]
theorem startClock_error_count (s : SessionState) (now : Nat) :
    (startClock s now).error_count = s.error_count := by
  unfold startClock
  split_ifs <;> rfl

/-- Helper: one loop iteration keeps the cursor at most text.length, given
that the loop guard current_index < total_chars held when the key was read. -/
theorem applyKey_cursor_le (text : List Nat) (s : SessionState) (ch now : Nat)
    (h : s.current_index < text.length) :
    (applyKey text s ch now).current_index ≤ text.length := by
  unfold applyKey
  split_ifs <;> simp_all <;> (try split_ifs <;> simp_all) <;> omega

/-- Helper: the typing loop preserves the cursor upper bound. -/
theorem run_cursor_le (text : List Nat) (keys : List (Nat × Nat)) (s : SessionState)
    (h : s.current_index ≤ text.length) :
    (run text s keys).current_index ≤ text.length := by
  induction keys generalizing s with
  | nil => simpa [run] using h
  | cons k rest ih =>
      obtain ⟨ch, now⟩ := k
      simp only [run]
      split_ifs with hlt
      · exact ih _ (applyKey_cursor_le text s ch now hlt)
      · exact h

/-- Claim C6. For every reference text and every key sequence, the cursor
stays within [0, N]: advances happen only under the loop guard
current_index < N and backspace only decrements a positive cursor, so
after any run the cursor is at most N (it is a natural number, hence
never below 0). -/
theorem cursor_in_bounds (text : List Nat) (keys : List (Nat × Nat)) :
    (run text (initState text.length) keys).current_index ≤ text.length :=
  run_cursor_le text keys (initState text.length) (by simp [initState])

/-- Helper: one loop iteration preserves error_count <= total_keystrokes,
since error_count is only incremented in the printable branch that also
increments total_keystrokes. -/
theorem applyKey_err_le (text : List Nat) (s : SessionState) (ch now : Nat)
    (h : s.error_count ≤ s.total_keystrokes) :
    (applyKey text s ch now).error_count ≤ (applyKey text s ch now).total_keystrokes := by
  unfold applyKey
  split_ifs <;> simp_all <;> (try split_ifs <;> simp_all) <;> omega

/-- Helper: the typing loop preserves error_count <= total_keystrokes. -/
theorem run_err_le (text : List Nat) (keys : List (Nat × Nat)) (s : SessionState)
    (h : s.error_count ≤ s.total_keystrokes) :
    (run text s keys).error_count ≤ (run text s keys).total_keystrokes := by
  induction keys generalizing s with
  | nil => simpa [run] using h
  | cons k rest ih =>
      obtain ⟨ch, now⟩ := k
      simp only [run]
      split_ifs with hlt
      · exact ih _ (applyKey_err_le text s ch now h)
      · exact h

/-- Helper: whenever error_count <= total_keystrokes, the consistency
metric lies in [0, 100]. -/
theorem consistency_bounds (t e : Nat) (h : e ≤ t) :
    0 ≤ consistency t e ∧ consistency t e ≤ 100 := by
  unfold consistency
  split_ifs with ht
  · have ht' : (0 : ℚ) < (t : ℚ) := by exact_mod_cast ht
    have he : (e : ℚ) ≤ (t : ℚ) := by exact_mod_cast h
    have he0 : (0 : ℚ) ≤ (e : ℚ) := by positivity
    constructor
    · apply div_nonneg _ ht'.le
      nlinarith
    · rw [div_le_iff₀ ht']
      nlinarith
  · norm_num

/-- Claim C8. After every key sequence, 0 <= error_count <=
total_keystrokes holds, so the consistency metric always lies in
[0, 100]. -/
theorem consistency_in_range (text : List Nat) (keys : List (Nat × Nat)) :
    (run text (initState text.length) keys).error_count ≤
      (run text (initState text.length) keys).total_keystrokes ∧
    0 ≤ consistency (run text (initState text.length) keys).total_keystrokes
        (run text (initState text.length) keys).error_count ∧
    consistency (run text (initState text.length) keys).total_keystrokes
        (run text (initState text.length) keys).error_count ≤ 100 := by
  have h : (run text (initState text.length) keys).error_count ≤
      (run text (initState text.length) keys).total_keystrokes :=
    run_err_le text keys (initState text.length) (by simp [initState])
  exact ⟨h, (consistency_bounds _ _ h).1, (consistency_bounds _ _ h).2⟩

/-- Claim C7. In wrap mode with a positive screen width, the frame has one
cell per text index, and the cell for index i sits at row i / width,
column i % width; it always shows the reference character (on a match the
typed character equals it), styled correct below the cursor on a match,
error below the cursor on a mismatch, and dim at or past the cursor. -/
theorem draw_wrapped_cells (text typed : List Nat) (w cur i : Nat)
    (hw : 0 < w) (hi : i < text.length) :
    (draw_wrapped text w typed cur).length = text.length ∧
    (draw_wrapped text w typed cur).getD i cellDefault =
      { row := i / w, col := i % w, ch := text.getD i 0,
        style := if i < cur then
            (if typed.getD i 0 = text.getD i 0 then Style.correct else Style.error)
          else Style.dim } := by
  constructor
  · simp [draw_wrapped]
  · have hcell : (draw_wrapped text w typed cur)[i]? = some (wrapCell text typed w cur i) := by
      simp [draw_wrapped, List.getElem?_map, List.getElem?_range, hi]
    rw [List.getD_eq_getElem?_getD, hcell, Option.getD_some]
    unfold wrapCell
    split_ifs <;> simp_all [List.getD_eq_getElem?_getD]

/-- Witness for draw_wrapped_cells: text "abc", typed "ax", width 2,
cursor 2; cell 1 is at row 0, column 1, showing the expected b in error
style. -/
theorem draw_wrapped_cells_witness :
    (draw_wrapped [97, 98, 99] 2 [97, 120, 0] 2).length = 3 ∧
    (draw_wrapped [97, 98, 99] 2 [97, 120, 0] 2).getD 1 cellDefault =
      { row := 0, col := 1, ch := 98, style := Style.error } := by
  have h := draw_wrapped_cells [97, 98, 99] [97, 120, 0] 2 2 1 (by decide) (by decide)
  exact ⟨h.1, h.2.trans (by decide)⟩

/-- Claim C9. For an empty reference text the loop body never executes
(run returns its input state unchanged for every key sequence), and the
accuracy computation divides the correct-character count 0 by
total_chars = 0, which is not guarded. -/
theorem empty_text_unguarded_division :
    (∀ (s : SessionState) (keys : List (Nat × Nat)), run [] s keys = s) ∧
    correct_chars [] [] = 0 ∧
    (([] : List Nat).length : ℚ) = 0 := by
  refine ⟨?_, rfl, by norm_num⟩
  intro s keys
  cases keys with
  | nil => rfl
  | cons k rest =>
      obtain ⟨ch, now⟩ := k
      simp [run]

/-- Claim C5. The else-if branch of main's argument loop compares argv[1]
instead of argv[i] against "--debug", so the argument vector
[typc, --debug, --bogus] is accepted (debug mode, no wrap) and a session
starts, while [typc, --bogus] correctly triggers the usage exit. -/
theorem parse_args_debug_bug :
    parse_args ["typc", "--debug", "--bogus"] = some (false, true) ∧
    parse_args ["typc", "--bogus"] = none := by
  decide

/-- Claim C10. When create_data_csv succeeds but the scores file cannot
be opened for append, save_score returns without writing (the record is
silently dropped) and the process still exits with status 0; only
create_data_csv failure is fatal. -/
theorem save_score_silent_drop :
    save_score true false = SaveOutcome.droppedNoWrite ∧
    session_exit_status true false = 0 ∧
    save_score false true = SaveOutcome.fatalExit ∧
    session_exit_status false true = 1 ∧
    session_exit_status true true = 0 := by
  decide

end Typc
